import Mathlib

/-!
Shallow embedding of `src/api/validate-purchase.js` from
beifengyi/pico-payment-server, together with proofs about the request
handler, the dedup cache, the two purchase validators and the signature
stub.

Modelling conventions:
* JS strings are `String`; absent/undefined JSON fields are `Option`.
* Timestamps (`Date.now()`) are `Nat` milliseconds, passed in as
  parameters (`t0` = handler start time, `t1` = time after validation,
  used for the cache entry timestamp, the eviction sweep and
  `server_time`).
* The `Map` order cache is a function `String → Option CacheEntry`
  (JS `Map` has unique keys; only `has`/`set`/iteration-for-delete are
  used by the source).
* The outbound axios call of the live validator is a parameter
  `PicoCallOutcome` describing the remote response or the transport
  fault, matching the branches of the source's try/catch.
* `generateRequestId()` results are passed in as the `requestId`
  parameter.
-/

namespace PicoPayment

/-- JS truthiness of a possibly-absent string field: `undefined`, `null`
and `""` are falsy, every other string is truthy
(the source tests `!product_id || !purchase_token || !user_id`). -/
def jsTruthyStr : Option String → Bool
  | none => false
  | some s => s ≠ ""

/-- JS `a || b` for a possibly-absent string `a` with fallback `b`
(used for `response.data?.msg || ...`). -/
def jsOrStr : Option String → String → String
  | none, fb => fb
  | some s, fb => if s = "" then fb else s

/-- JS `String.prototype.startsWith`, modelled on the character list
(the builtin `String.startsWith` goes through byte positions whose
recursion does not unfold definitionally, so witnesses could not be
evaluated with it). -/
def strStartsWith (s pre : String) : Bool := pre.data.isPrefixOf s.data

/-- A cache value: `{ product_id, user_id, timestamp }` as stored by the
handler on a successful non-duplicate validation. -/
structure CacheEntry where
  product_id : String
  user_id : String
  timestamp : Nat
deriving DecidableEq, Repr

/-- The module-level `orderCache` `Map`, modelled by its lookup
function. -/
def Cache : Type := String → Option CacheEntry

/-- The empty cache (fresh process). -/
def emptyCache : Cache := fun _ => none

/-- The map lookup `orderCache.has(key)`. -/
def cacheHas (c : Cache) (k : String) : Bool := (c k).isSome

/-- The map update `orderCache.set(key, entry)`. -/
def cacheSet (c : Cache) (k : String) (e : CacheEntry) : Cache :=
  fun q => if q = k then some e else c q

/-- Twenty-four hours in milliseconds (`24 * 60 * 60 * 1000`). -/
def twentyFourHours : Nat := 24 * 60 * 60 * 1000

/-- The sweep `cleanupOldOrders()`: deletes every entry with
`now - order.timestamp > twentyFourHours`.  (With `Nat` truncated
subtraction a timestamp in the future gives `0`, which is not `> 24h`,
matching the JS comparison on a negative difference.) -/
def cleanupOldOrders (c : Cache) (now : Nat) : Cache :=
  fun q =>
    match c q with
    | some e => if now - e.timestamp > twentyFourHours then none else some e
    | none => none

/-- The JSON body of a `ValidationResult` produced by either validator:
`{ success, message, validated_product_id, is_duplicate, server_time }`. -/
structure ValidationResult where
  success : Bool
  message : String
  validated_product_id : String
  is_duplicate : Bool
  server_time : Nat
deriving DecidableEq, Repr

/-- The parsed request body (`req.body`); every field may be absent. -/
structure ReqBody where
  product_id : Option String
  purchase_token : Option String
  user_id : Option String
  platform : Option String
  app_version : Option String
  device_id : Option String
deriving DecidableEq, Repr

/-- The HTTP method of the incoming request, as the handler
distinguishes it. -/
inductive Method where
  | OPTIONS
  | POST
  | other (name : String)
deriving DecidableEq, Repr

/-- The JSON response body assembled by the handler.  Fields that a
given response path does not emit are `none`; `request_id` is present on
every JSON body the source builds. -/
structure RespJson where
  success : Bool
  message : String
  validated_product_id : Option String
  is_duplicate : Option Bool
  request_id : String
  server_time : Option Nat
  processing_time : Option Nat
deriving DecidableEq, Repr

/-- What the handler sends back: either a bodyless response
(`res.status(200).end()` for OPTIONS) or a JSON body with a status. -/
inductive HandlerResponse where
  | empty (status : Nat)
  | json (status : Nat) (body : RespJson)
deriving DecidableEq, Repr

/-- The JSON data of a remote PICO reply: `{ ret, msg }`. -/
structure PicoResponseData where
  ret : Int
  msg : Option String
deriving DecidableEq, Repr

/-- Outcome of the outbound `axios.post` in `validatePicoPurchase`:
a reply (whose `data` may be absent/falsy), a timeout
(`error.code === 'ECONNABORTED'`), a non-2xx remote status
(`error.response`), or any other transport fault. -/
inductive PicoCallOutcome where
  | reply (data : Option PicoResponseData)
  | timeoutFault
  | httpFault (status : Nat)
  | otherFault (emsg : String)
deriving DecidableEq, Repr

/-- The outbound request body built by `validatePicoPurchase`
(`sign` added afterwards). -/
structure PicoRequestData where
  app_id : String
  user_id : String
  product_id : String
  purchase_token : String
deriving DecidableEq, Repr

/-- The canonical string built by `generatePicoSignature`: keys sorted
(`app_id`, `product_id`, `purchase_token`, `user_id`), `sign` excluded,
joined as `key=value` pairs with `&`, trailing `&` removed. -/
def picoSignString (d : PicoRequestData) : String :=
  "app_id=" ++ d.app_id ++ "&product_id=" ++ d.product_id ++
    "&purchase_token=" ++ d.purchase_token ++ "&user_id=" ++ d.user_id

/-- The stub `generatePicoSignature(data)`: computes the canonical string, but
then returns only the placeholder `'demo_signature_' + Date.now()`. -/
def generatePicoSignature (d : PicoRequestData) (now : Nat) : String :=
  let signString := picoSignString d
  let _ := signString
  "demo_signature_" ++ toString now

/-- The configured `PICO_CONFIG.APP_ID` (environment value or hardcoded fallback),
kept abstract as the fallback default. -/
def picoAppId : String := "your_pico_app_id"

/-- The live validator `validatePicoPurchase(productId, purchaseToken, userId, requestId)`:
builds the signed outbound request and interprets the remote outcome. -/
def validatePicoPurchase (productId purchaseToken userId : String)
    (outcome : PicoCallOutcome) (now : Nat) : ValidationResult :=
  let requestData : PicoRequestData :=
    ⟨picoAppId, userId, productId, purchaseToken⟩
  let sign := generatePicoSignature requestData now
  let _ := sign
  match outcome with
  | .reply data =>
    match data with
    | some d =>
      if d.ret = 0 then
        { success := true, message := "PICO支付验证成功",
          validated_product_id := productId, is_duplicate := false,
          server_time := now }
      else
        { success := false,
          message := "PICO验证失败: " ++
            jsOrStr d.msg ("错误码: " ++ toString d.ret),
          validated_product_id := productId, is_duplicate := false,
          server_time := now }
    | none =>
      { success := false,
        message := "PICO验证失败: " ++ jsOrStr none "错误码: undefined",
        validated_product_id := productId, is_duplicate := false,
        server_time := now }
  | .timeoutFault =>
    { success := false, message := "验证请求超时",
      validated_product_id := productId, is_duplicate := false,
      server_time := now }
  | .httpFault status =>
    { success := false, message := "PICO服务器错误: " ++ toString status,
      validated_product_id := productId, is_duplicate := false,
      server_time := now }
  | .otherFault _ =>
    { success := false, message := "支付验证服务暂时不可用",
      validated_product_id := productId, is_duplicate := false,
      server_time := now }

/-- The test validator `validateSimulatedPurchase(productId, purchaseToken, userId)`:
after the 300ms delay, approves exactly the tokens starting with
`simulated_purchase_token_` or `test_`. -/
def validateSimulatedPurchase (productId purchaseToken userId : String)
    (now : Nat) : ValidationResult :=
  let _ := userId
  let isValid := strStartsWith purchaseToken "simulated_purchase_token_" ||
    strStartsWith purchaseToken "test_"
  if isValid then
    { success := true, message := "模拟支付验证成功",
      validated_product_id := productId, is_duplicate := false,
      server_time := now }
  else
    { success := false, message := "模拟支付验证失败：无效的支付令牌",
      validated_product_id := productId, is_duplicate := false,
      server_time := now }

/-- The exported `handler(req, res)`.  Inputs: the method, the parsed
body, the current cache, the generated request id, the start time `t0`,
the post-validation time `t1`, and the outcome of the outbound call
(consulted only when the live validator runs).  Output: the response
sent and the cache after the call. -/
def handler (method : Method) (req : ReqBody) (cache : Cache)
    (requestId : String) (t0 t1 : Nat) (remote : PicoCallOutcome) :
    HandlerResponse × Cache :=
  match method with
  | .OPTIONS => (HandlerResponse.empty 200, cache)
  | .other _ =>
    (HandlerResponse.json 405
      { success := false, message := "Method not allowed",
        validated_product_id := none, is_duplicate := none,
        request_id := requestId, server_time := none,
        processing_time := none }, cache)
  | .POST =>
    let platform := req.platform.getD "pico"
    if !jsTruthyStr req.product_id || !jsTruthyStr req.purchase_token ||
        !jsTruthyStr req.user_id then
      (HandlerResponse.json 200
        { success := false,
          message := "缺少必要参数: product_id, purchase_token, user_id",
          validated_product_id := none, is_duplicate := none,
          request_id := requestId, server_time := none,
          processing_time := none }, cache)
    else
      let product_id := req.product_id.getD ""
      let purchase_token := req.purchase_token.getD ""
      let user_id := req.user_id.getD ""
      let orderKey := user_id ++ "_" ++ purchase_token
      if cacheHas cache orderKey then
        (HandlerResponse.json 200
          { success := true, message := "重复订单（已处理过）",
            validated_product_id := some product_id,
            is_duplicate := some true, request_id := requestId,
            server_time := some t1, processing_time := none }, cache)
      else
        let validationResult :=
          if platform = "pico" then
            validatePicoPurchase product_id purchase_token user_id remote t1
          else
            validateSimulatedPurchase product_id purchase_token user_id t1
        let cache' :=
          if validationResult.success && !validationResult.is_duplicate then
            cleanupOldOrders
              (cacheSet cache orderKey ⟨product_id, user_id, t1⟩) t1
          else cache
        (HandlerResponse.json 200
          { success := validationResult.success,
            message := validationResult.message,
            validated_product_id := some validationResult.validated_product_id,
            is_duplicate := some validationResult.is_duplicate,
            request_id := requestId,
            server_time := some validationResult.server_time,
            processing_time := some (t1 - t0) }, cache')

/-- One handler invocation of a trace: the request together with the
per-call environment (request id, times, remote outcome). -/
structure TraceStep where
  method : Method
  req : ReqBody
  requestId : String
  t0 : Nat
  t1 : Nat
  remote : PicoCallOutcome
deriving Repr

/-- Record the `(user_id, purchase_token)` pair `pr` of a call whose
response reports a successful, non-duplicate validation. -/
def stepEvents (resp : HandlerResponse) (pr : String × String)
    (evs : List (String × String)) : List (String × String) :=
  match resp with
  | .json _ body =>
    if body.success && body.is_duplicate == some false then pr :: evs else evs
  | .empty _ => evs

/-- Run a list of handler invocations, threading the cache and
collecting the `(user_id, purchase_token)` pairs whose call returned a
successful, non-duplicate validation. -/
def runSteps : Cache × List (String × String) → List TraceStep →
    Cache × List (String × String)
  | st, [] => st
  | (c, evs), s :: rest =>
    let out := handler s.method s.req c s.requestId s.t0 s.t1 s.remote
    runSteps (out.2,
      stepEvents out.1 (s.req.user_id.getD "", s.req.purchase_token.getD "") evs) rest

/-- The string `sub` occurs as a substring of `s`. -/
def strContains (s sub : String) : Prop := ∃ a b, s = a ++ sub ++ b

/-- Both validators always return `is_duplicate = false` (pico). -/
theorem pico_is_duplicate_false (p t u : String) (o : PicoCallOutcome) (now : Nat) :
    (validatePicoPurchase p t u o now).is_duplicate = false := by
  cases o with
  | reply data =>
    cases data with
    | none => rfl
    | some d =>
      simp only [validatePicoPurchase]
      split <;> rfl
  | timeoutFault => rfl
  | httpFault s => rfl
  | otherFault e => rfl

/-- Both validators always return `is_duplicate = false` (simulated). -/
theorem sim_is_duplicate_false (p t u : String) (now : Nat) :
    (validateSimulatedPurchase p t u now).is_duplicate = false := by
  simp only [validateSimulatedPurchase]
  split <;> rfl

/-- Both validators echo the product id (pico). -/
theorem pico_validated_product_id (p t u : String) (o : PicoCallOutcome) (now : Nat) :
    (validatePicoPurchase p t u o now).validated_product_id = p := by
  cases o with
  | reply data =>
    cases data with
    | none => rfl
    | some d =>
      simp only [validatePicoPurchase]
      split <;> rfl
  | timeoutFault => rfl
  | httpFault s => rfl
  | otherFault e => rfl

/-- Both validators echo the product id (simulated). -/
theorem sim_validated_product_id (p t u : String) (now : Nat) :
    (validateSimulatedPurchase p t u now).validated_product_id = p := by
  simp only [validateSimulatedPurchase]
  split <;> rfl

/-- Both validators stamp `server_time` with the current time (pico). -/
theorem pico_server_time (p t u : String) (o : PicoCallOutcome) (now : Nat) :
    (validatePicoPurchase p t u o now).server_time = now := by
  cases o with
  | reply data =>
    cases data with
    | none => rfl
    | some d =>
      simp only [validatePicoPurchase]
      split <;> rfl
  | timeoutFault => rfl
  | httpFault s => rfl
  | otherFault e => rfl

/-- Both validators stamp `server_time` with the current time (simulated). -/
theorem sim_server_time (p t u : String) (now : Nat) :
    (validateSimulatedPurchase p t u now).server_time = now := by
  simp only [validateSimulatedPurchase]
  split <;> rfl

/-- C4: the simulated validator succeeds exactly on tokens starting with
"test_" or "simulated_purchase_token_"; on success the message is the
fixed success message and on failure the fixed invalid-token message;
`validated_product_id` always equals the request's product id and
`is_duplicate` is always false. -/
theorem C4_simulated_validator (productId purchaseToken userId : String)
    (now : Nat) :
    ((validateSimulatedPurchase productId purchaseToken userId now).success = true ↔
      (strStartsWith purchaseToken "test_" = true ∨
        strStartsWith purchaseToken "simulated_purchase_token_" = true)) ∧
    ((validateSimulatedPurchase productId purchaseToken userId now).success = true →
      validateSimulatedPurchase productId purchaseToken userId now =
        ⟨true, "模拟支付验证成功", productId, false, now⟩) ∧
    ((validateSimulatedPurchase productId purchaseToken userId now).success = false →
      validateSimulatedPurchase productId purchaseToken userId now =
        ⟨false, "模拟支付验证失败：无效的支付令牌", productId, false, now⟩) ∧
    (validateSimulatedPurchase productId purchaseToken userId now).validated_product_id =
      productId := by
  cases hb : (strStartsWith purchaseToken "simulated_purchase_token_" ||
      strStartsWith purchaseToken "test_") with
  | true =>
    have hres : validateSimulatedPurchase productId purchaseToken userId now =
        ⟨true, "模拟支付验证成功", productId, false, now⟩ := by
      simp [validateSimulatedPurchase, hb]
    rw [Bool.or_eq_true] at hb
    refine ⟨?_, fun _ => hres, ?_, ?_⟩
    · rw [hres]
      constructor
      · intro _
        tauto
      · intro _
        rfl
    · rw [hres]
      intro hf
      exact absurd hf (by simp)
    · rw [hres]
  | false =>
    have hres : validateSimulatedPurchase productId purchaseToken userId now =
        ⟨false, "模拟支付验证失败：无效的支付令牌", productId, false, now⟩ := by
      simp [validateSimulatedPurchase, hb]
    have hnor : ¬ (strStartsWith purchaseToken "test_" = true ∨
        strStartsWith purchaseToken "simulated_purchase_token_" = true) := by
      intro hor
      have : (strStartsWith purchaseToken "simulated_purchase_token_" ||
          strStartsWith purchaseToken "test_") = true := by
        rw [Bool.or_eq_true]; tauto
      rw [hb] at this
      cases this
    refine ⟨?_, ?_, fun _ => hres, ?_⟩
    · rw [hres]
      constructor
      · intro hf
        exact absurd hf (by simp)
      · intro hx
        exact absurd hx hnor
    · rw [hres]
      intro hf
      exact absurd hf (by simp)
    · rw [hres]

/-- Witness for C4 at a concrete accepted token. -/
theorem C4_simulated_validator_witness :
    (validateSimulatedPurchase "p1" "test_abc" "u1" 7).success = true ∧
    validateSimulatedPurchase "p1" "test_abc" "u1" 7 =
      ⟨true, "模拟支付验证成功", "p1", false, 7⟩ := by
  have h := C4_simulated_validator "p1" "test_abc" "u1" 7
  have hs : (validateSimulatedPurchase "p1" "test_abc" "u1" 7).success = true :=
    h.1.mpr (Or.inl (by decide))
  exact ⟨hs, h.2.1 hs⟩

/-- C5: the live validator returns success exactly on remote `ret = 0`;
on any other `ret` it fails with a message containing the remote `msg`
(when truthy) or otherwise the code; on a transport timeout it fails
with the timeout message. -/
theorem C5_live_validator (productId purchaseToken userId : String) (now : Nat) :
    (∀ msg, validatePicoPurchase productId purchaseToken userId
        (PicoCallOutcome.reply (some ⟨0, msg⟩)) now =
      ⟨true, "PICO支付验证成功", productId, false, now⟩) ∧
    (∀ ret msg, ret ≠ 0 →
      (validatePicoPurchase productId purchaseToken userId
          (PicoCallOutcome.reply (some ⟨ret, msg⟩)) now).success = false ∧
      ((∃ m, msg = some m ∧ m ≠ "" ∧
          strContains (validatePicoPurchase productId purchaseToken userId
            (PicoCallOutcome.reply (some ⟨ret, msg⟩)) now).message m) ∨
        strContains (validatePicoPurchase productId purchaseToken userId
          (PicoCallOutcome.reply (some ⟨ret, msg⟩)) now).message (toString ret))) ∧
    (validatePicoPurchase productId purchaseToken userId
        PicoCallOutcome.timeoutFault now =
      ⟨false, "验证请求超时", productId, false, now⟩ ∧
      strContains "验证请求超时" "超时") := by
  have hlit : "PICO验证失败: " ++ "错误码: " = "PICO验证失败: 错误码: " := by decide
  refine ⟨?_, ?_, ?_, ?_⟩
  · intro msg
    simp [validatePicoPurchase]
  · intro ret msg hret
    constructor
    · simp [validatePicoPurchase, hret]
    · cases msg with
      | none =>
        right
        refine ⟨"PICO验证失败: 错误码: ", "", ?_⟩
        have hmsg : (validatePicoPurchase productId purchaseToken userId
            (PicoCallOutcome.reply (some ⟨ret, none⟩)) now).message =
            "PICO验证失败: " ++ ("错误码: " ++ toString ret) := by
          simp [validatePicoPurchase, hret, jsOrStr]
        rw [hmsg, ← String.append_assoc, hlit, String.append_empty]
      | some m =>
        by_cases hm : m = ""
        · right
          refine ⟨"PICO验证失败: 错误码: ", "", ?_⟩
          have hmsg : (validatePicoPurchase productId purchaseToken userId
              (PicoCallOutcome.reply (some ⟨ret, some m⟩)) now).message =
              "PICO验证失败: " ++ ("错误码: " ++ toString ret) := by
            simp [validatePicoPurchase, hret, jsOrStr, hm]
          rw [hmsg, ← String.append_assoc, hlit, String.append_empty]
        · left
          refine ⟨m, rfl, hm, "PICO验证失败: ", "", ?_⟩
          have hmsg : (validatePicoPurchase productId purchaseToken userId
              (PicoCallOutcome.reply (some ⟨ret, some m⟩)) now).message =
              "PICO验证失败: " ++ m := by
            simp [validatePicoPurchase, hret, jsOrStr, hm]
          rw [hmsg, String.append_empty]
  · rfl
  · exact ⟨"验证请求", "", rfl⟩

/-- Witness for C5 at the spec's example `ret = 7`, `msg = "expired"`. -/
theorem C5_live_validator_witness :
    (validatePicoPurchase "p1" "tok" "u1"
        (PicoCallOutcome.reply (some ⟨7, some "expired"⟩)) 5).success = false ∧
    ((∃ m, (some "expired" : Option String) = some m ∧ m ≠ "" ∧
        strContains (validatePicoPurchase "p1" "tok" "u1"
          (PicoCallOutcome.reply (some ⟨7, some "expired"⟩)) 5).message m) ∨
      strContains (validatePicoPurchase "p1" "tok" "u1"
        (PicoCallOutcome.reply (some ⟨7, some "expired"⟩)) 5).message (toString (7 : Int))) :=
  (C5_live_validator "p1" "tok" "u1" 5).2.1 7 (some "expired") (by decide)

/-- C10: the signature stub's output does not depend on its request-data
argument; it is the fixed placeholder prefix plus the current time. -/
theorem C10_signature_input_independent (d1 d2 : PicoRequestData) (now : Nat) :
    generatePicoSignature d1 now = generatePicoSignature d2 now ∧
    generatePicoSignature d1 now = "demo_signature_" ++ toString now :=
  ⟨rfl, rfl⟩

/-- C6: a POST whose body lacks any of the three required fields gets
HTTP 200 with `success = false` (and the fixed missing-parameters
message), and the cache is left untouched; the response does not depend
on the cache contents or on any validator outcome. -/
theorem C6_missing_params (req : ReqBody) (cache : Cache) (requestId : String)
    (t0 t1 : Nat) (remote : PicoCallOutcome)
    (h : req.product_id = none ∨ req.purchase_token = none ∨ req.user_id = none) :
    handler Method.POST req cache requestId t0 t1 remote =
      (HandlerResponse.json 200
        { success := false,
          message := "缺少必要参数: product_id, purchase_token, user_id",
          validated_product_id := none, is_duplicate := none,
          request_id := requestId, server_time := none,
          processing_time := none }, cache) := by
  rcases h with h | h | h <;>
    simp [handler, h, jsTruthyStr]

/-- Witness for C6: missing product_id on an otherwise well-formed body. -/
theorem C6_missing_params_witness :
    handler Method.POST ⟨none, some "tok", some "u1", none, none, none⟩
        emptyCache "r1" 0 5 (PicoCallOutcome.otherFault "e") =
      (HandlerResponse.json 200
        { success := false,
          message := "缺少必要参数: product_id, purchase_token, user_id",
          validated_product_id := none, is_duplicate := none,
          request_id := "r1", server_time := none,
          processing_time := none }, emptyCache) :=
  C6_missing_params ⟨none, some "tok", some "u1", none, none, none⟩
    emptyCache "r1" 0 5 (PicoCallOutcome.otherFault "e") (Or.inl rfl)

/-- C9: a required field present but equal to the empty string is
treated exactly like an absent field: the handler answers with the same
missing-parameters failure (success = false, HTTP 200) and neither
consults nor mutates the cache. -/
theorem C9_empty_required_field (req : ReqBody) (cache : Cache)
    (requestId : String) (t0 t1 : Nat) (remote : PicoCallOutcome)
    (h : req.product_id = some "" ∨ req.purchase_token = some "" ∨
      req.user_id = some "") :
    handler Method.POST req cache requestId t0 t1 remote =
      (HandlerResponse.json 200
        { success := false,
          message := "缺少必要参数: product_id, purchase_token, user_id",
          validated_product_id := none, is_duplicate := none,
          request_id := requestId, server_time := none,
          processing_time := none }, cache) := by
  rcases h with h | h | h <;>
    simp [handler, h, jsTruthyStr]

/-- Witness for C9: empty purchase_token. -/
theorem C9_empty_required_field_witness :
    handler Method.POST ⟨some "p1", some "", some "u1", none, none, none⟩
        emptyCache "r1" 0 5 (PicoCallOutcome.otherFault "e") =
      (HandlerResponse.json 200
        { success := false,
          message := "缺少必要参数: product_id, purchase_token, user_id",
          validated_product_id := none, is_duplicate := none,
          request_id := "r1", server_time := none,
          processing_time := none }, emptyCache) :=
  C9_empty_required_field ⟨some "p1", some "", some "u1", none, none, none⟩
    emptyCache "r1" 0 5 (PicoCallOutcome.otherFault "e") (Or.inr (Or.inl rfl))

/-- Dispatch on the platform field always yields `is_duplicate = false`. -/
theorem dispatch_is_duplicate_false (plat p t u : String) (o : PicoCallOutcome)
    (now : Nat) :
    (if plat = "pico" then validatePicoPurchase p t u o now
      else validateSimulatedPurchase p t u now).is_duplicate = false := by
  split
  · exact pico_is_duplicate_false p t u o now
  · exact sim_is_duplicate_false p t u now

/-- Dispatch on the platform field always echoes the product id. -/
theorem dispatch_validated_product_id (plat p t u : String)
    (o : PicoCallOutcome) (now : Nat) :
    (if plat = "pico" then validatePicoPurchase p t u o now
      else validateSimulatedPurchase p t u now).validated_product_id = p := by
  split
  · exact pico_validated_product_id p t u o now
  · exact sim_validated_product_id p t u now

/-- Dispatch on the platform field always stamps the current time. -/
theorem dispatch_server_time (plat p t u : String)
    (o : PicoCallOutcome) (now : Nat) :
    (if plat = "pico" then validatePicoPurchase p t u o now
      else validateSimulatedPurchase p t u now).server_time = now := by
  split
  · exact pico_server_time p t u o now
  · exact sim_server_time p t u now

/-- On a POST with all required fields truthy whose dedup key is in the
cache, the handler returns the duplicate response and leaves the cache
unchanged (no validator outcome occurs in the result). -/
theorem handler_dup_path (req : ReqBody) (cache : Cache) (requestId : String)
    (t0 t1 : Nat) (remote : PicoCallOutcome)
    (h1 : jsTruthyStr req.product_id = true)
    (h2 : jsTruthyStr req.purchase_token = true)
    (h3 : jsTruthyStr req.user_id = true)
    (hkey : cacheHas cache
      (req.user_id.getD "" ++ "_" ++ req.purchase_token.getD "") = true) :
    handler Method.POST req cache requestId t0 t1 remote =
      (HandlerResponse.json 200
        { success := true, message := "重复订单（已处理过）",
          validated_product_id := some (req.product_id.getD ""),
          is_duplicate := some true, request_id := requestId,
          server_time := some t1, processing_time := none }, cache) := by
  simp [handler, h1, h2, h3, hkey]

/-- On a POST with all required fields truthy whose dedup key is absent,
the handler dispatches on the platform and answers with the validator's
result; on success it inserts the entry and sweeps. -/
theorem handler_fresh_path (req : ReqBody) (cache : Cache) (requestId : String)
    (t0 t1 : Nat) (remote : PicoCallOutcome)
    (h1 : jsTruthyStr req.product_id = true)
    (h2 : jsTruthyStr req.purchase_token = true)
    (h3 : jsTruthyStr req.user_id = true)
    (hkey : cacheHas cache
      (req.user_id.getD "" ++ "_" ++ req.purchase_token.getD "") = false) :
    handler Method.POST req cache requestId t0 t1 remote =
      ((HandlerResponse.json 200
        { success := (if req.platform.getD "pico" = "pico" then
            validatePicoPurchase (req.product_id.getD "")
              (req.purchase_token.getD "") (req.user_id.getD "") remote t1
          else validateSimulatedPurchase (req.product_id.getD "")
            (req.purchase_token.getD "") (req.user_id.getD "") t1).success,
          message := (if req.platform.getD "pico" = "pico" then
            validatePicoPurchase (req.product_id.getD "")
              (req.purchase_token.getD "") (req.user_id.getD "") remote t1
          else validateSimulatedPurchase (req.product_id.getD "")
            (req.purchase_token.getD "") (req.user_id.getD "") t1).message,
          validated_product_id := some ((if req.platform.getD "pico" = "pico" then
            validatePicoPurchase (req.product_id.getD "")
              (req.purchase_token.getD "") (req.user_id.getD "") remote t1
          else validateSimulatedPurchase (req.product_id.getD "")
            (req.purchase_token.getD "") (req.user_id.getD "") t1).validated_product_id),
          is_duplicate := some ((if req.platform.getD "pico" = "pico" then
            validatePicoPurchase (req.product_id.getD "")
              (req.purchase_token.getD "") (req.user_id.getD "") remote t1
          else validateSimulatedPurchase (req.product_id.getD "")
            (req.purchase_token.getD "") (req.user_id.getD "") t1).is_duplicate),
          request_id := requestId,
          server_time := some ((if req.platform.getD "pico" = "pico" then
            validatePicoPurchase (req.product_id.getD "")
              (req.purchase_token.getD "") (req.user_id.getD "") remote t1
          else validateSimulatedPurchase (req.product_id.getD "")
            (req.purchase_token.getD "") (req.user_id.getD "") t1).server_time),
          processing_time := some (t1 - t0) }),
        if (if req.platform.getD "pico" = "pico" then
            validatePicoPurchase (req.product_id.getD "")
              (req.purchase_token.getD "") (req.user_id.getD "") remote t1
          else validateSimulatedPurchase (req.product_id.getD "")
            (req.purchase_token.getD "") (req.user_id.getD "") t1).success &&
          !(if req.platform.getD "pico" = "pico" then
            validatePicoPurchase (req.product_id.getD "")
              (req.purchase_token.getD "") (req.user_id.getD "") remote t1
          else validateSimulatedPurchase (req.product_id.getD "")
            (req.purchase_token.getD "") (req.user_id.getD "") t1).is_duplicate then
          cleanupOldOrders (cacheSet cache
            (req.user_id.getD "" ++ "_" ++ req.purchase_token.getD "")
            ⟨req.product_id.getD "", req.user_id.getD "", t1⟩) t1
        else cache) := by
  simp [handler, h1, h2, h3, hkey]

/-- C2 counterexample: a POST with the three required fields and no
platform field is dispatched to the live validator, not the simulated
one: with a remote `ret = 0` reply the response is the live success
(message "PICO支付验证成功", success = true), while the simulated
validator would have rejected this token (success = false with the
simulated failure message). -/
theorem C2_counterexample :
    (handler Method.POST ⟨some "p1", some "tok", some "u1", none, none, none⟩
        emptyCache "r1" 0 3 (PicoCallOutcome.reply (some ⟨0, none⟩))).1 =
      HandlerResponse.json 200
        { success := true, message := "PICO支付验证成功",
          validated_product_id := some "p1", is_duplicate := some false,
          request_id := "r1", server_time := some 3,
          processing_time := some 3 } ∧
    validateSimulatedPurchase "p1" "tok" "u1" 3 =
      ⟨false, "模拟支付验证失败：无效的支付令牌", "p1", false, 3⟩ := by
  refine ⟨by decide, by decide⟩

/-- C2 amended: when the body omits the platform field it defaults to
"pico" (not "native"), so the handler dispatches to the live validator:
on a fresh dedup key the response is built from the live validator's
result. -/
theorem C2_amended_platform_defaults_to_pico (req : ReqBody) (cache : Cache)
    (requestId : String) (t0 t1 : Nat) (remote : PicoCallOutcome)
    (hp : req.platform = none)
    (h1 : jsTruthyStr req.product_id = true)
    (h2 : jsTruthyStr req.purchase_token = true)
    (h3 : jsTruthyStr req.user_id = true)
    (hkey : cacheHas cache
      (req.user_id.getD "" ++ "_" ++ req.purchase_token.getD "") = false) :
    (handler Method.POST req cache requestId t0 t1 remote).1 =
      HandlerResponse.json 200
        { success := (validatePicoPurchase (req.product_id.getD "")
            (req.purchase_token.getD "") (req.user_id.getD "") remote t1).success,
          message := (validatePicoPurchase (req.product_id.getD "")
            (req.purchase_token.getD "") (req.user_id.getD "") remote t1).message,
          validated_product_id := some ((validatePicoPurchase (req.product_id.getD "")
            (req.purchase_token.getD "") (req.user_id.getD "") remote t1).validated_product_id),
          is_duplicate := some ((validatePicoPurchase (req.product_id.getD "")
            (req.purchase_token.getD "") (req.user_id.getD "") remote t1).is_duplicate),
          request_id := requestId,
          server_time := some ((validatePicoPurchase (req.product_id.getD "")
            (req.purchase_token.getD "") (req.user_id.getD "") remote t1).server_time),
          processing_time := some (t1 - t0) } := by
  rw [handler_fresh_path req cache requestId t0 t1 remote h1 h2 h3 hkey]
  simp [hp]

/-- Witness for the amended C2 on a concrete request without platform. -/
theorem C2_amended_platform_defaults_to_pico_witness :
    (handler Method.POST ⟨some "p2", some "tok2", some "u2", none, none, none⟩
        emptyCache "r2" 1 4 PicoCallOutcome.timeoutFault).1 =
      HandlerResponse.json 200
        { success := (validatePicoPurchase "p2" "tok2" "u2"
            PicoCallOutcome.timeoutFault 4).success,
          message := (validatePicoPurchase "p2" "tok2" "u2"
            PicoCallOutcome.timeoutFault 4).message,
          validated_product_id := some ((validatePicoPurchase "p2" "tok2" "u2"
            PicoCallOutcome.timeoutFault 4).validated_product_id),
          is_duplicate := some ((validatePicoPurchase "p2" "tok2" "u2"
            PicoCallOutcome.timeoutFault 4).is_duplicate),
          request_id := "r2",
          server_time := some ((validatePicoPurchase "p2" "tok2" "u2"
            PicoCallOutcome.timeoutFault 4).server_time),
          processing_time := some 3 } :=
  C2_amended_platform_defaults_to_pico
    ⟨some "p2", some "tok2", some "u2", none, none, none⟩ emptyCache "r2" 1 4
    PicoCallOutcome.timeoutFault rfl (by decide) (by decide) (by decide) (by decide)

/-- On the fresh-key path the response body echoes the request's product
id, reports the dispatched validator's success flag, and is never a
duplicate. -/
theorem handler_fresh_body_fields (req : ReqBody) (cache : Cache)
    (requestId : String) (t0 t1 : Nat) (remote : PicoCallOutcome)
    (body1 : RespJson)
    (h1 : jsTruthyStr req.product_id = true)
    (h2 : jsTruthyStr req.purchase_token = true)
    (h3 : jsTruthyStr req.user_id = true)
    (hkey : cacheHas cache
      (req.user_id.getD "" ++ "_" ++ req.purchase_token.getD "") = false)
    (hfst : (handler Method.POST req cache requestId t0 t1 remote).1 =
      HandlerResponse.json 200 body1) :
    body1.validated_product_id = some (req.product_id.getD "") ∧
    body1.success = (if req.platform.getD "pico" = "pico" then
        validatePicoPurchase (req.product_id.getD "") (req.purchase_token.getD "")
          (req.user_id.getD "") remote t1
      else validateSimulatedPurchase (req.product_id.getD "")
        (req.purchase_token.getD "") (req.user_id.getD "") t1).success ∧
    body1.is_duplicate = some false := by
  rw [handler_fresh_path req cache requestId t0 t1 remote h1 h2 h3 hkey] at hfst
  injection hfst with hst hb
  rw [← hb]
  refine ⟨?_, rfl, ?_⟩
  · rw [show (RespJson.mk _ _ _ _ _ _ _).validated_product_id =
      some ((if req.platform.getD "pico" = "pico" then
        validatePicoPurchase (req.product_id.getD "") (req.purchase_token.getD "")
          (req.user_id.getD "") remote t1
      else validateSimulatedPurchase (req.product_id.getD "")
        (req.purchase_token.getD "") (req.user_id.getD "") t1).validated_product_id)
      from rfl]
    rw [dispatch_validated_product_id]
  · rw [show (RespJson.mk _ _ _ _ _ _ _).is_duplicate =
      some ((if req.platform.getD "pico" = "pico" then
        validatePicoPurchase (req.product_id.getD "") (req.purchase_token.getD "")
          (req.user_id.getD "") remote t1
      else validateSimulatedPurchase (req.product_id.getD "")
        (req.purchase_token.getD "") (req.user_id.getD "") t1).is_duplicate)
      from rfl]
    rw [dispatch_is_duplicate_false]

/-- After a successful fresh validation the handler's resulting cache is
the 24-hour sweep of the old cache with the new entry inserted. -/
theorem handler_success_cache (req : ReqBody) (cache : Cache)
    (requestId : String) (t0 t1 : Nat) (remote : PicoCallOutcome)
    (body1 : RespJson)
    (h1 : jsTruthyStr req.product_id = true)
    (h2 : jsTruthyStr req.purchase_token = true)
    (h3 : jsTruthyStr req.user_id = true)
    (hkey : cacheHas cache
      (req.user_id.getD "" ++ "_" ++ req.purchase_token.getD "") = false)
    (hfst : (handler Method.POST req cache requestId t0 t1 remote).1 =
      HandlerResponse.json 200 body1)
    (hsucc : body1.success = true) :
    (handler Method.POST req cache requestId t0 t1 remote).2 =
      cleanupOldOrders (cacheSet cache
        (req.user_id.getD "" ++ "_" ++ req.purchase_token.getD "")
        ⟨req.product_id.getD "", req.user_id.getD "", t1⟩) t1 := by
  obtain ⟨-, hbs, -⟩ :=
    handler_fresh_body_fields req cache requestId t0 t1 remote body1 h1 h2 h3 hkey hfst
  have hvrs : (if req.platform.getD "pico" = "pico" then
      validatePicoPurchase (req.product_id.getD "") (req.purchase_token.getD "")
        (req.user_id.getD "") remote t1
    else validateSimulatedPurchase (req.product_id.getD "")
      (req.purchase_token.getD "") (req.user_id.getD "") t1).success = true := by
    rw [← hbs]; exact hsucc
  rw [handler_fresh_path req cache requestId t0 t1 remote h1 h2 h3 hkey]
  simp [hvrs, dispatch_is_duplicate_false]

/-- The freshly inserted key survives the sweep that follows it. -/
theorem cacheHas_after_insert (cache : Cache) (key : String) (p u : String)
    (t1 : Nat) :
    cacheHas (cleanupOldOrders (cacheSet cache key ⟨p, u, t1⟩) t1) key = true := by
  simp [cacheHas, cleanupOldOrders, cacheSet, Nat.sub_self]

/-- C1: (1) whenever the dedup key of a well-formed POST is already in
the cache, the handler short-circuits: it returns success = true,
is_duplicate = true and the duplicate message, echoes the request's
product id, and leaves the cache unchanged, independently of any
validator outcome; (2) submitting the same request twice with the first
call succeeding yields is_duplicate = true on the second call and an
unchanged validated_product_id. -/
theorem C1_dedup_idempotence :
    (∀ (req : ReqBody) (cache : Cache) (requestId : String) (t0 t1 : Nat)
        (remote : PicoCallOutcome),
      jsTruthyStr req.product_id = true →
      jsTruthyStr req.purchase_token = true →
      jsTruthyStr req.user_id = true →
      cacheHas cache
        (req.user_id.getD "" ++ "_" ++ req.purchase_token.getD "") = true →
      handler Method.POST req cache requestId t0 t1 remote =
        (HandlerResponse.json 200
          { success := true, message := "重复订单（已处理过）",
            validated_product_id := some (req.product_id.getD ""),
            is_duplicate := some true, request_id := requestId,
            server_time := some t1, processing_time := none }, cache)) ∧
    (∀ (req : ReqBody) (cache : Cache) (requestId requestId' : String)
        (t0 t1 t0' t1' : Nat) (remote remote' : PicoCallOutcome)
        (body1 : RespJson),
      jsTruthyStr req.product_id = true →
      jsTruthyStr req.purchase_token = true →
      jsTruthyStr req.user_id = true →
      cacheHas cache
        (req.user_id.getD "" ++ "_" ++ req.purchase_token.getD "") = false →
      (handler Method.POST req cache requestId t0 t1 remote).1 =
        HandlerResponse.json 200 body1 →
      body1.success = true →
      ((handler Method.POST req
          (handler Method.POST req cache requestId t0 t1 remote).2
          requestId' t0' t1' remote').1 =
        HandlerResponse.json 200
          { success := true, message := "重复订单（已处理过）",
            validated_product_id := some (req.product_id.getD ""),
            is_duplicate := some true, request_id := requestId',
            server_time := some t1', processing_time := none } ∧
       body1.validated_product_id = some (req.product_id.getD ""))) := by
  constructor
  · intro req cache requestId t0 t1 remote h1 h2 h3 hkey
    exact handler_dup_path req cache requestId t0 t1 remote h1 h2 h3 hkey
  · intro req cache requestId requestId' t0 t1 t0' t1' remote remote' body1
      h1 h2 h3 hkey hfst hsucc
    obtain ⟨hpid, -, -⟩ :=
      handler_fresh_body_fields req cache requestId t0 t1 remote body1 h1 h2 h3 hkey hfst
    have hc2 := handler_success_cache req cache requestId t0 t1 remote body1
      h1 h2 h3 hkey hfst hsucc
    have hkey2 : cacheHas (handler Method.POST req cache requestId t0 t1 remote).2
        (req.user_id.getD "" ++ "_" ++ req.purchase_token.getD "") = true := by
      rw [hc2]
      exact cacheHas_after_insert cache _ _ _ t1
    refine ⟨?_, hpid⟩
    rw [handler_dup_path req _ requestId' t0' t1' remote' h1 h2 h3 hkey2]

/-- Witness for C1: a concrete purchase submitted twice (simulated
platform, valid test token). -/
theorem C1_dedup_idempotence_witness :
    (handler Method.POST
        ⟨some "pw", some "test_w1", some "uw", some "sim", none, none⟩
        (handler Method.POST
          ⟨some "pw", some "test_w1", some "uw", some "sim", none, none⟩
          emptyCache "rw1" 0 9 (PicoCallOutcome.otherFault "x")).2
        "rw2" 10 12 (PicoCallOutcome.otherFault "x")).1 =
      HandlerResponse.json 200
        { success := true, message := "重复订单（已处理过）",
          validated_product_id := some "pw", is_duplicate := some true,
          request_id := "rw2", server_time := some 12,
          processing_time := none } ∧
    RespJson.validated_product_id
      { success := true, message := "模拟支付验证成功",
        validated_product_id := some "pw", is_duplicate := some false,
        request_id := "rw1", server_time := some 9,
        processing_time := some 9 } = some "pw" :=
  C1_dedup_idempotence.2
    ⟨some "pw", some "test_w1", some "uw", some "sim", none, none⟩
    emptyCache "rw1" "rw2" 0 9 10 12 (PicoCallOutcome.otherFault "x")
    (PicoCallOutcome.otherFault "x")
    { success := true, message := "模拟支付验证成功",
      validated_product_id := some "pw", is_duplicate := some false,
      request_id := "rw1", server_time := some 9, processing_time := some 9 }
    (by decide) (by decide) (by decide) (by decide) (by decide) (by decide)

/-- C7: after the sweep that follows a successful fresh validation,
every previously stored entry whose age (at the sweep time t1) exceeds
24 hours is absent, every entry younger than 24 hours is still present
with its value unchanged, and the new entry is present with timestamp
t1. -/
theorem C7_eviction_sweep (req : ReqBody) (cache : Cache) (requestId : String)
    (t0 t1 : Nat) (remote : PicoCallOutcome) (body1 : RespJson)
    (h1 : jsTruthyStr req.product_id = true)
    (h2 : jsTruthyStr req.purchase_token = true)
    (h3 : jsTruthyStr req.user_id = true)
    (hkey : cacheHas cache
      (req.user_id.getD "" ++ "_" ++ req.purchase_token.getD "") = false)
    (hfst : (handler Method.POST req cache requestId t0 t1 remote).1 =
      HandlerResponse.json 200 body1)
    (hsucc : body1.success = true) :
    (∀ k e, cache k = some e → t1 - e.timestamp > twentyFourHours →
      (handler Method.POST req cache requestId t0 t1 remote).2 k = none) ∧
    (∀ k e, cache k = some e → t1 - e.timestamp < twentyFourHours →
      (handler Method.POST req cache requestId t0 t1 remote).2 k = some e) ∧
    (handler Method.POST req cache requestId t0 t1 remote).2
      (req.user_id.getD "" ++ "_" ++ req.purchase_token.getD "") =
      some ⟨req.product_id.getD "", req.user_id.getD "", t1⟩ := by
  have hc2 := handler_success_cache req cache requestId t0 t1 remote body1
    h1 h2 h3 hkey hfst hsucc
  rw [hc2]
  have hkne : ∀ k (e : CacheEntry), cache k = some e →
      k ≠ req.user_id.getD "" ++ "_" ++ req.purchase_token.getD "" := by
    intro k e hk hcontra
    rw [hcontra] at hk
    unfold cacheHas at hkey
    rw [hk] at hkey
    cases hkey
  refine ⟨?_, ?_, ?_⟩
  · intro k e hk hold
    simp [cleanupOldOrders, cacheSet, if_neg (hkne k e hk), hk, hold]
  · intro k e hk hyoung
    have hng : ¬ (t1 - e.timestamp > twentyFourHours) := by omega
    simp [cleanupOldOrders, cacheSet, if_neg (hkne k e hk), hk, hng]
  · simp [cleanupOldOrders, cacheSet, Nat.sub_self]

/-- Witness for C7: a stale entry is evicted, a young one survives, the
new entry is stored. -/
theorem C7_eviction_sweep_witness :
    (handler Method.POST
        ⟨some "pv", some "test_v", some "uv", some "sim", none, none⟩
        (cacheSet (cacheSet emptyCache "old_old" ⟨"po", "uo", 0⟩)
          "young_k" ⟨"py", "uy", 89000000⟩)
        "rv" 0 90000000 (PicoCallOutcome.otherFault "x")).2 "old_old" = none ∧
    (handler Method.POST
        ⟨some "pv", some "test_v", some "uv", some "sim", none, none⟩
        (cacheSet (cacheSet emptyCache "old_old" ⟨"po", "uo", 0⟩)
          "young_k" ⟨"py", "uy", 89000000⟩)
        "rv" 0 90000000 (PicoCallOutcome.otherFault "x")).2 "young_k" =
      some ⟨"py", "uy", 89000000⟩ ∧
    (handler Method.POST
        ⟨some "pv", some "test_v", some "uv", some "sim", none, none⟩
        (cacheSet (cacheSet emptyCache "old_old" ⟨"po", "uo", 0⟩)
          "young_k" ⟨"py", "uy", 89000000⟩)
        "rv" 0 90000000 (PicoCallOutcome.otherFault "x")).2 "uv_test_v" =
      some ⟨"pv", "uv", 90000000⟩ := by
  have h := C7_eviction_sweep
    ⟨some "pv", some "test_v", some "uv", some "sim", none, none⟩
    (cacheSet (cacheSet emptyCache "old_old" ⟨"po", "uo", 0⟩)
      "young_k" ⟨"py", "uy", 89000000⟩)
    "rv" 0 90000000 (PicoCallOutcome.otherFault "x")
    { success := true, message := "模拟支付验证成功",
      validated_product_id := some "pv", is_duplicate := some false,
      request_id := "rv", server_time := some 90000000,
      processing_time := some 90000000 }
    (by decide) (by decide) (by decide) (by decide) (by decide) (by decide)
  exact ⟨h.1 "old_old" ⟨"po", "uo", 0⟩ (by decide) (by decide),
    h.2.1 "young_k" ⟨"py", "uy", 89000000⟩ (by decide) (by decide),
    h.2.2⟩

/-- A key present after a sweep was present before it. -/
theorem cacheHas_cleanup (c : Cache) (now : Nat) (k : String)
    (h : cacheHas (cleanupOldOrders c now) k = true) : cacheHas c k = true := by
  unfold cacheHas cleanupOldOrders at h
  unfold cacheHas
  cases hck : c k with
  | none => rw [hck] at h; simp at h
  | some e => rfl

/-- A key present after an insert is the inserted key or was present
before. -/
theorem cacheHas_set_cases (c : Cache) (key k : String) (e : CacheEntry)
    (h : cacheHas (cacheSet c key e) k = true) :
    k = key ∨ cacheHas c k = true := by
  unfold cacheHas cacheSet at h
  by_cases hk : k = key
  · exact Or.inl hk
  · right
    rw [if_neg hk] at h
    exact h

/-- One handler call either leaves the cache unchanged, or (exactly when
its response reports a successful non-duplicate validation) replaces it
by the swept insert of the request's dedup key. -/
theorem handler_cache_unchanged_or_insert (method : Method) (req : ReqBody)
    (c : Cache) (requestId : String) (t0 t1 : Nat) (remote : PicoCallOutcome) :
    (handler method req c requestId t0 t1 remote).2 = c ∨
    ((handler method req c requestId t0 t1 remote).2 =
        cleanupOldOrders (cacheSet c
          (req.user_id.getD "" ++ "_" ++ req.purchase_token.getD "")
          ⟨req.product_id.getD "", req.user_id.getD "", t1⟩) t1 ∧
      ∃ body, (handler method req c requestId t0 t1 remote).1 =
          HandlerResponse.json 200 body ∧
        body.success = true ∧ body.is_duplicate = some false) := by
  cases method with
  | OPTIONS => exact Or.inl rfl
  | other s => exact Or.inl rfl
  | POST =>
    by_cases h1 : jsTruthyStr req.product_id = true
    case neg =>
      left
      have h1f : jsTruthyStr req.product_id = false := by
        revert h1; cases jsTruthyStr req.product_id <;> simp
      simp [handler, h1f]
    by_cases h2 : jsTruthyStr req.purchase_token = true
    case neg =>
      left
      have h2f : jsTruthyStr req.purchase_token = false := by
        revert h2; cases jsTruthyStr req.purchase_token <;> simp
      simp [handler, h2f]
    by_cases h3 : jsTruthyStr req.user_id = true
    case neg =>
      left
      have h3f : jsTruthyStr req.user_id = false := by
        revert h3; cases jsTruthyStr req.user_id <;> simp
      simp [handler, h3f]
    by_cases hkey : cacheHas c
        (req.user_id.getD "" ++ "_" ++ req.purchase_token.getD "") = true
    case pos =>
      left
      rw [handler_dup_path req c requestId t0 t1 remote h1 h2 h3 hkey]
    case neg =>
      have hkf : cacheHas c
          (req.user_id.getD "" ++ "_" ++ req.purchase_token.getD "") = false := by
        revert hkey
        cases cacheHas c (req.user_id.getD "" ++ "_" ++ req.purchase_token.getD "") <;>
          simp
      by_cases hvs : (if req.platform.getD "pico" = "pico" then
          validatePicoPurchase (req.product_id.getD "") (req.purchase_token.getD "")
            (req.user_id.getD "") remote t1
        else validateSimulatedPurchase (req.product_id.getD "")
          (req.purchase_token.getD "") (req.user_id.getD "") t1).success = true
      case pos =>
        right
        constructor
        · rw [handler_fresh_path req c requestId t0 t1 remote h1 h2 h3 hkf]
          simp [hvs, dispatch_is_duplicate_false]
        · refine ⟨_, by rw [handler_fresh_path req c requestId t0 t1 remote h1 h2 h3 hkf], ?_, ?_⟩
          · exact hvs
          · rw [show (RespJson.mk _ _ _ _ _ _ _).is_duplicate =
              some ((if req.platform.getD "pico" = "pico" then
                validatePicoPurchase (req.product_id.getD "")
                  (req.purchase_token.getD "") (req.user_id.getD "") remote t1
              else validateSimulatedPurchase (req.product_id.getD "")
                (req.purchase_token.getD "") (req.user_id.getD "") t1).is_duplicate)
              from rfl]
            rw [dispatch_is_duplicate_false]
      case neg =>
        left
        have hvf : (if req.platform.getD "pico" = "pico" then
            validatePicoPurchase (req.product_id.getD "") (req.purchase_token.getD "")
              (req.user_id.getD "") remote t1
          else validateSimulatedPurchase (req.product_id.getD "")
            (req.purchase_token.getD "") (req.user_id.getD "") t1).success = false := by
          revert hvs
          cases (if req.platform.getD "pico" = "pico" then
            validatePicoPurchase (req.product_id.getD "") (req.purchase_token.getD "")
              (req.user_id.getD "") remote t1
          else validateSimulatedPurchase (req.product_id.getD "")
            (req.purchase_token.getD "") (req.user_id.getD "") t1).success <;> simp
        rw [handler_fresh_path req c requestId t0 t1 remote h1 h2 h3 hkf]
        simp [hvf]

/-- Members of the event list survive a step. -/
theorem stepEvents_mono (resp : HandlerResponse) (pr x : String × String)
    (evs : List (String × String)) (hx : x ∈ evs) :
    x ∈ stepEvents resp pr evs := by
  cases resp with
  | empty s => exact hx
  | json s body =>
    simp only [stepEvents]
    split
    · exact List.mem_cons_of_mem _ hx
    · exact hx

/-- A successful non-duplicate response records its pair. -/
theorem stepEvents_success (status : Nat) (body : RespJson)
    (pr : String × String) (evs : List (String × String))
    (hs : body.success = true) (hd : body.is_duplicate = some false) :
    stepEvents (HandlerResponse.json status body) pr evs = pr :: evs := by
  simp [stepEvents, hs, hd]

/-- Invariant carried through a trace: every key present in the cache is
the concatenation of a pair that already produced a successful
non-duplicate validation. -/
theorem runSteps_key_has_event (steps : List TraceStep) :
    ∀ (c : Cache) (evs : List (String × String)),
      (∀ k, cacheHas c k = true →
        ∃ u t, u ++ "_" ++ t = k ∧ (u, t) ∈ evs) →
      ∀ k, cacheHas (runSteps (c, evs) steps).1 k = true →
        ∃ u t, u ++ "_" ++ t = k ∧ (u, t) ∈ (runSteps (c, evs) steps).2 := by
  induction steps with
  | nil =>
    intro c evs hinv k hk
    exact hinv k hk
  | cons s rest ih =>
    intro c evs hinv k hk
    have hrw : runSteps (c, evs) (s :: rest) =
        runSteps ((handler s.method s.req c s.requestId s.t0 s.t1 s.remote).2,
          stepEvents (handler s.method s.req c s.requestId s.t0 s.t1 s.remote).1
            (s.req.user_id.getD "", s.req.purchase_token.getD "") evs) rest := rfl
    rw [hrw] at hk ⊢
    apply ih
    · intro k' hk'
      rcases handler_cache_unchanged_or_insert s.method s.req c s.requestId
          s.t0 s.t1 s.remote with hsame | ⟨hins, body, hresp, hbs, hbd⟩
      · rw [hsame] at hk'
        obtain ⟨u, t, hcat, hmem⟩ := hinv k' hk'
        exact ⟨u, t, hcat, stepEvents_mono _ _ _ _ hmem⟩
      · rw [hins] at hk'
        rcases cacheHas_set_cases _ _ _ _ (cacheHas_cleanup _ _ _ hk') with hkk | hold
        · refine ⟨s.req.user_id.getD "", s.req.purchase_token.getD "",
            hkk.symm, ?_⟩
          rw [hresp, stepEvents_success _ _ _ _ hbs hbd]
          exact List.mem_cons_self _ _
        · obtain ⟨u, t, hcat, hmem⟩ := hinv k' hold
          exact ⟨u, t, hcat, stepEvents_mono _ _ _ _ hmem⟩
    · exact hk

/-- C3 counterexample: a reachable state in which the key
"a_test_test_y" is present while two distinct (user_id, purchase_token)
pairs mapping to that same concatenated key — ("a", "test_test_y") and
("a_test", "test_y") — have each previously produced a successful,
non-duplicate validation (the first entry was evicted by the sweep
after an unrelated insert, re-admitting the colliding pair). -/
theorem C3_counterexample :
    cacheHas (runSteps (emptyCache, [])
      [⟨Method.POST, ⟨some "pA", some "test_test_y", some "a", some "sim",
          none, none⟩, "r1", 0, 0, PicoCallOutcome.otherFault "n"⟩,
       ⟨Method.POST, ⟨some "pC", some "test_z", some "x", some "sim",
          none, none⟩, "r2", 90000000, 90000000, PicoCallOutcome.otherFault "n"⟩,
       ⟨Method.POST, ⟨some "pB", some "test_y", some "a_test", some "sim",
          none, none⟩, "r3", 90000001, 90000001,
          PicoCallOutcome.otherFault "n"⟩]).1 "a_test_test_y" = true ∧
    ("a", "test_test_y") ∈ (runSteps (emptyCache, [])
      [⟨Method.POST, ⟨some "pA", some "test_test_y", some "a", some "sim",
          none, none⟩, "r1", 0, 0, PicoCallOutcome.otherFault "n"⟩,
       ⟨Method.POST, ⟨some "pC", some "test_z", some "x", some "sim",
          none, none⟩, "r2", 90000000, 90000000, PicoCallOutcome.otherFault "n"⟩,
       ⟨Method.POST, ⟨some "pB", some "test_y", some "a_test", some "sim",
          none, none⟩, "r3", 90000001, 90000001,
          PicoCallOutcome.otherFault "n"⟩]).2 ∧
    ("a_test", "test_y") ∈ (runSteps (emptyCache, [])
      [⟨Method.POST, ⟨some "pA", some "test_test_y", some "a", some "sim",
          none, none⟩, "r1", 0, 0, PicoCallOutcome.otherFault "n"⟩,
       ⟨Method.POST, ⟨some "pC", some "test_z", some "x", some "sim",
          none, none⟩, "r2", 90000000, 90000000, PicoCallOutcome.otherFault "n"⟩,
       ⟨Method.POST, ⟨some "pB", some "test_y", some "a_test", some "sim",
          none, none⟩, "r3", 90000001, 90000001,
          PicoCallOutcome.otherFault "n"⟩]).2 ∧
    (("a", "test_test_y") : String × String) ≠ ("a_test", "test_y") ∧
    "a" ++ "_" ++ "test_test_y" = "a_test_test_y" ∧
    "a_test" ++ "_" ++ "test_y" = "a_test_test_y" := by
  refine ⟨by decide, by decide, by decide, by decide, by decide, by decide⟩

/-- C3 amended: in every reachable state (from the empty cache), a key
present in the cache means that SOME (user_id, purchase_token) pair
whose concatenation `user_id ++ "_" ++ purchase_token` equals the key
has previously produced a successful, non-duplicate validation; the
pair need not be unique, since distinct pairs can share a key when the
user id contains an underscore, and eviction can re-admit the key for a
second colliding pair. -/
theorem C3_amended_cache_invariant (steps : List TraceStep) (k : String)
    (hk : cacheHas (runSteps (emptyCache, []) steps).1 k = true) :
    ∃ u t, u ++ "_" ++ t = k ∧
      (u, t) ∈ (runSteps (emptyCache, []) steps).2 :=
  runSteps_key_has_event steps emptyCache []
    (fun k' hk' => absurd hk' (by simp [cacheHas, emptyCache])) k hk

/-- Witness for the amended C3 on a one-step trace. -/
theorem C3_amended_cache_invariant_witness :
    ∃ u t, u ++ "_" ++ t = "u_test_w" ∧
      (u, t) ∈ (runSteps (emptyCache, [])
        [⟨Method.POST, ⟨some "p", some "test_w", some "u", some "sim",
            none, none⟩, "r", 0, 0, PicoCallOutcome.otherFault "n"⟩]).2 :=
  C3_amended_cache_invariant
    [⟨Method.POST, ⟨some "p", some "test_w", some "u", some "sim",
        none, none⟩, "r", 0, 0, PicoCallOutcome.otherFault "n"⟩]
    "u_test_w" (by decide)

/-- C8 counterexample: the missing-parameters path is a non-OPTIONS
response whose body carries no processing_time field (only the main
validator path measures the duration), refuting the claim that every
non-preflight response includes the processing duration. -/
theorem C8_counterexample :
    (handler Method.POST ⟨none, some "tok8", some "u8", none, none, none⟩
        emptyCache "r8" 0 5 (PicoCallOutcome.otherFault "e")).1 =
      HandlerResponse.json 200
        { success := false,
          message := "缺少必要参数: product_id, purchase_token, user_id",
          validated_product_id := none, is_duplicate := none,
          request_id := "r8", server_time := none,
          processing_time := none } := by decide

/-- C8 amended: every non-OPTIONS response is a JSON body carrying the
per-request identifier; the measured processing duration (t1 - t0) is
included exactly on the path that invoked a validator (POST with all
required fields truthy and a fresh dedup key) — the 405,
missing-parameters and duplicate paths omit it. -/
theorem C8_amended_request_id_and_duration (method : Method) (req : ReqBody)
    (cache : Cache) (requestId : String) (t0 t1 : Nat)
    (remote : PicoCallOutcome) (hm : method ≠ Method.OPTIONS) :
    ∃ status body,
      (handler method req cache requestId t0 t1 remote).1 =
        HandlerResponse.json status body ∧
      body.request_id = requestId ∧
      (body.processing_time = none ∨ body.processing_time = some (t1 - t0)) ∧
      (body.processing_time ≠ none ↔
        (method = Method.POST ∧ jsTruthyStr req.product_id = true ∧
          jsTruthyStr req.purchase_token = true ∧
          jsTruthyStr req.user_id = true ∧
          cacheHas cache
            (req.user_id.getD "" ++ "_" ++ req.purchase_token.getD "") = false)) := by
  cases method with
  | OPTIONS => exact absurd rfl hm
  | other s =>
    refine ⟨405, _, rfl, rfl, Or.inl rfl, ?_⟩
    constructor
    · intro hne
      exact absurd rfl hne
    · rintro ⟨hpost, -⟩
      exact Method.noConfusion hpost
  | POST =>
    by_cases hcond : (!jsTruthyStr req.product_id ||
        !jsTruthyStr req.purchase_token || !jsTruthyStr req.user_id) = true
    · have hres : (handler Method.POST req cache requestId t0 t1 remote).1 =
          HandlerResponse.json 200
            { success := false,
              message := "缺少必要参数: product_id, purchase_token, user_id",
              validated_product_id := none, is_duplicate := none,
              request_id := requestId, server_time := none,
              processing_time := none } := by
        simp [handler, hcond]
      refine ⟨200, _, hres, rfl, Or.inl rfl, ?_⟩
      constructor
      · intro hne
        exact absurd rfl hne
      · rintro ⟨-, ha, hb, hc, -⟩
        rw [ha, hb, hc] at hcond
        simp at hcond
    · have hall : jsTruthyStr req.product_id = true ∧
          jsTruthyStr req.purchase_token = true ∧
          jsTruthyStr req.user_id = true := by
        revert hcond
        cases jsTruthyStr req.product_id <;>
          cases jsTruthyStr req.purchase_token <;>
          cases jsTruthyStr req.user_id <;> simp
      obtain ⟨h1, h2, h3⟩ := hall
      by_cases hkey : cacheHas cache
          (req.user_id.getD "" ++ "_" ++ req.purchase_token.getD "") = true
      · have hres : (handler Method.POST req cache requestId t0 t1 remote).1 =
            HandlerResponse.json 200
              { success := true, message := "重复订单（已处理过）",
                validated_product_id := some (req.product_id.getD ""),
                is_duplicate := some true, request_id := requestId,
                server_time := some t1, processing_time := none } := by
          rw [handler_dup_path req cache requestId t0 t1 remote h1 h2 h3 hkey]
        refine ⟨200, _, hres, rfl, Or.inl rfl, ?_⟩
        constructor
        · intro hne
          exact absurd rfl hne
        · rintro ⟨-, -, -, -, hkf⟩
          rw [hkey] at hkf
          cases hkf
      · have hkf : cacheHas cache
            (req.user_id.getD "" ++ "_" ++ req.purchase_token.getD "") = false := by
          revert hkey
          cases cacheHas cache
            (req.user_id.getD "" ++ "_" ++ req.purchase_token.getD "") <;> simp
        have hres : (handler Method.POST req cache requestId t0 t1 remote).1 =
            HandlerResponse.json 200
              { success := (if req.platform.getD "pico" = "pico" then
                  validatePicoPurchase (req.product_id.getD "")
                    (req.purchase_token.getD "") (req.user_id.getD "") remote t1
                else validateSimulatedPurchase (req.product_id.getD "")
                  (req.purchase_token.getD "") (req.user_id.getD "") t1).success,
                message := (if req.platform.getD "pico" = "pico" then
                  validatePicoPurchase (req.product_id.getD "")
                    (req.purchase_token.getD "") (req.user_id.getD "") remote t1
                else validateSimulatedPurchase (req.product_id.getD "")
                  (req.purchase_token.getD "") (req.user_id.getD "") t1).message,
                validated_product_id := some ((if req.platform.getD "pico" = "pico" then
                  validatePicoPurchase (req.product_id.getD "")
                    (req.purchase_token.getD "") (req.user_id.getD "") remote t1
                else validateSimulatedPurchase (req.product_id.getD "")
                  (req.purchase_token.getD "") (req.user_id.getD "") t1).validated_product_id),
                is_duplicate := some ((if req.platform.getD "pico" = "pico" then
                  validatePicoPurchase (req.product_id.getD "")
                    (req.purchase_token.getD "") (req.user_id.getD "") remote t1
                else validateSimulatedPurchase (req.product_id.getD "")
                  (req.purchase_token.getD "") (req.user_id.getD "") t1).is_duplicate),
                request_id := requestId,
                server_time := some ((if req.platform.getD "pico" = "pico" then
                  validatePicoPurchase (req.product_id.getD "")
                    (req.purchase_token.getD "") (req.user_id.getD "") remote t1
                else validateSimulatedPurchase (req.product_id.getD "")
                  (req.purchase_token.getD "") (req.user_id.getD "") t1).server_time),
                processing_time := some (t1 - t0) } := by
          rw [handler_fresh_path req cache requestId t0 t1 remote h1 h2 h3 hkf]
        refine ⟨200, _, hres, rfl, Or.inr rfl, ?_⟩
        constructor
        · intro _
          exact ⟨rfl, h1, h2, h3, hkf⟩
        · intro _
          exact Option.some_ne_none _

/-- Witness for the amended C8 on a GET request (405 path). -/
theorem C8_amended_request_id_and_duration_witness :
    ∃ status body,
      (handler (Method.other "GET")
          ⟨some "p9", some "t9", some "u9", none, none, none⟩
          emptyCache "r9" 0 2 (PicoCallOutcome.otherFault "e")).1 =
        HandlerResponse.json status body ∧
      body.request_id = "r9" ∧
      (body.processing_time = none ∨ body.processing_time = some (2 - 0)) ∧
      (body.processing_time ≠ none ↔
        (Method.other "GET" = Method.POST ∧
          jsTruthyStr (some "p9") = true ∧
          jsTruthyStr (some "t9") = true ∧
          jsTruthyStr (some "u9") = true ∧
          cacheHas emptyCache
            ((some "u9" : Option String).getD "" ++ "_" ++
              (some "t9" : Option String).getD "") = false)) :=
  C8_amended_request_id_and_duration (Method.other "GET")
    ⟨some "p9", some "t9", some "u9", none, none, none⟩
    emptyCache "r9" 0 2 (PicoCallOutcome.otherFault "e") (by decide)

end PicoPayment
